import Mathlib

/-!
Verification of the duplicate-safe RSS-to-Bluesky publishing pipeline.

Shallow embedding of the core logic of the repository:
  * `src/bot/post_handler.py`  — post composition (template, 300-char
    truncation) and the publish / text-only-fallback control flow;
  * `src/bot/db_handler.py`    — the SQLite ledger: `is_posted`,
    `save_post` (INSERT OR IGNORE), `migrate_schema`;
  * `src/bot/bot_logic.py`     — the per-cycle duplicate check
    (`is_already_posted_wrapper`), login backoff, recent-post snapshot,
    and the per-entry posting loop body;
  * `src/utils/rss_parser.py`  — `fetch_new_rss_entries`.

Python strings are modelled as `List Char` where slicing arithmetic
matters and as `String` elsewhere; SQLite errors and network failures are
injected as explicit `Except`/flag parameters; `datetime.now()` is an
explicit `now` parameter.
-/

/-- Python list/string slicing `s[:k]` for a possibly negative bound `k`:
a nonnegative bound takes at most `k` leading elements, a negative bound
drops `|k|` trailing elements (empty when `|k| ≥ len`). -/
def pySlice (s : List Char) (k : Int) : List Char :=
  if 0 ≤ k then s.take k.toNat else s.take (((s.length : Int) + k).toNat)

/-- `listLeads needle hay` is true when `needle` is an initial segment of
`hay` (helper for Python's substring test). -/
def listLeads : List Char → List Char → Bool
  | [], _ => true
  | _ :: _, [] => false
  | n :: ns, h :: hs => n == h && listLeads ns hs

/-- Python's `needle in hay` substring test on character lists. -/
def containsList (needle : List Char) : List Char → Bool
  | [] => listLeads needle []
  | h :: t => listLeads needle (h :: t) || containsList needle t

/-- Python's `needle in hay` substring test on strings. -/
def strContains (hay needle : String) : Bool :=
  containsList needle.data hay.data

/-- Python's `str.lower` (per-character lowering). -/
def lowerStr (s : String) : String := ⟨s.data.map Char.toLower⟩

/-!
## Post composition — `PostHandler.post_entry`, lines 187–204

The configured template contains `{title}` and `{link}` once each (the
default is `"{title}\n\nRead more: {link}"`), so it splits as
`tplPre ++ "{title}" ++ tplMid ++ "{link}" ++ tplPost`;
`format_overhead = len(post_format) - len("{title}") - len("{link}")`
is then exactly `len tplPre + len tplMid + len tplPost`.
-/

/-- The ellipsis string literal appended by `post_entry` when truncating.
In the source file the bytes are `C3 A2 E2 82 AC C2 A6`: the UTF-8
encoding of the THREE characters U+00E2, U+20AC, U+00A6 (a mojibake
corruption of the single character U+2026), so the Python literal has
length 3. -/
def truncationEllipsis : List Char := ['â', '€', '¦']

/-- The middle part `"\n\nRead more: "` of the default template
`"{title}\n\nRead more: {link}"` (13 characters). -/
def defaultTplMid : List Char := "\n\nRead more: ".data

/-- `post_entry` lines 190–204: compute the title budget
`300 - format_overhead - len(link)`, truncate the title with the
ellipsis literal when it exceeds the budget, then substitute title and
link into the template. -/
def composePostText (tplPre tplMid tplPost title link : List Char) :
    List Char :=
  let overhead : Int :=
    (tplPre.length : Int) + (tplMid.length : Int) + (tplPost.length : Int)
  let maxTitleLength : Int := 300 - overhead - (link.length : Int)
  let title' :=
    if (title.length : Int) > maxTitleLength then
      pySlice title (maxTitleLength - 1) ++ truncationEllipsis
    else title
  tplPre ++ title' ++ tplMid ++ link ++ tplPost

/-!
## The ledger — `DatabaseHandler` (`src/bot/db_handler.py`)

A row of the `posts` table in the current schema
(`id, account_name, rss_url, title, bluesky_uri, bluesky_url,
posted_at, published_date` with `UNIQUE(account_name, rss_url)`).
-/

structure Row where
  id : Nat
  account_name : String
  rss_url : String
  title : String
  bluesky_uri : Option String
  bluesky_url : Option String
  posted_at : Option String
  published_date : Option String
deriving DecidableEq, Repr

/-- A fresh AUTOINCREMENT id: one more than the largest id in use. -/
def nextId (rows : List Row) : Nat :=
  (rows.map Row.id).foldr max 0 + 1

/-- `rowKeyMatch acc url r` holds the `UNIQUE(account_name, rss_url)` key
of `r` against `(acc, url)`. -/
def rowKeyMatch (acc url : String) (r : Row) : Bool :=
  r.account_name == acc && r.rss_url == url

/-- Python truthiness of an optional string argument (`if rss_url:`
skips both `None` and the empty string). -/
def pyTruthy : Option String → Bool
  | none => false
  | some s => !(s == "")

/-- `DatabaseHandler.is_posted` (lines 117–146), as a pure lookup over
the rows: check by `(account_name, rss_url)` first, then fall back to
`(account_name, title)`; each check runs only when its argument is
truthy. -/
def is_posted_rows (rows : List Row) (acc : String)
    (rssUrl title : Option String) : Bool :=
  (pyTruthy rssUrl &&
    rows.any fun r => r.account_name == acc && r.rss_url == rssUrl.getD "") ||
  (pyTruthy title &&
    rows.any fun r => r.account_name == acc && r.title == title.getD "")

/-- `DatabaseHandler.save_post` (lines 148–167) on the row list:
`INSERT OR IGNORE` — when a row with the same `(account_name, rss_url)`
key exists the statement is a no-op, otherwise a new row is appended
with `posted_at` set to the current time. -/
def save_post_rows (rows : List Row) (acc url title pd : String)
    (uri burl : Option String) (now : String) : List Row :=
  if rows.any (rowKeyMatch acc url) then rows
  else rows ++ [⟨nextId rows, acc, url, title, uri, burl, some now, some pd⟩]

/-- A database connection for one account: the rows plus error-injection
flags standing for SQLite exceptions raised by the two statements. -/
structure DbConn where
  account_name : String
  rows : List Row
  lookupRaises : Bool
  saveRaises : Bool
deriving DecidableEq, Repr

/-- `DatabaseHandler.is_posted` at the connection level: raising is
modelled by `Except.error`. -/
def is_posted (conn : DbConn) (rssUrl title : Option String) :
    Except Unit Bool :=
  if conn.lookupRaises then .error ()
  else .ok (is_posted_rows conn.rows conn.account_name rssUrl title)

/-- `DatabaseHandler.save_post` at the connection level. -/
def save_post (conn : DbConn) (url title pd : String)
    (uri burl : Option String) (now : String) : Except Unit DbConn :=
  if conn.saveRaises then .error ()
  else .ok { conn with
    rows := save_post_rows conn.rows conn.account_name url title pd uri burl now }

/-!
## Schema migration — `DatabaseHandler.migrate_schema` (lines 45–115)
-/

/-- A row of the pre-`rss_url` schema
(`id, [account_name,] title, published_date`); when the store predates
the `account_name` column as well, the `account_name` field is ignored
by the migration (`SELECT id, 'default', title, title, published_date`). -/
structure OldRow where
  id : Nat
  account_name : String
  title : String
  published_date : Option String
deriving DecidableEq, Repr

/-- The state of the `posts` store: no table yet, the old schema without
the `rss_url` column (with or without `account_name`), or the current
schema. -/
inductive Store where
  | absent : Store
  | old (hasAccountCol : Bool) (rows : List OldRow) : Store
  | current (rows : List Row) : Store
deriving DecidableEq, Repr

/-- How `migrate_schema` rewrites one old row into `posts_new`:
`rss_url` is filled with the row's title, the Bluesky columns and
`posted_at` are left NULL, and the account is `'default'` when the old
schema had no `account_name` column. -/
def migrateRow (hasAccountCol : Bool) (r : OldRow) : Row :=
  { id := r.id
    account_name := if hasAccountCol then r.account_name else "default"
    rss_url := r.title
    title := r.title
    bluesky_uri := none
    bluesky_url := none
    posted_at := none
    published_date := r.published_date }

/-- Pairwise distinctness of `(account_name, rss_url)` keys, i.e. the
`UNIQUE(account_name, rss_url)` constraint as a boolean check. -/
def keysUniqueB : List Row → Bool
  | [] => true
  | r :: rs =>
    (!rs.any fun s => r.account_name == s.account_name && r.rss_url == s.rss_url)
      && keysUniqueB rs

/-- `DatabaseHandler.migrate_schema`: create the table on a fresh store;
do nothing when the `rss_url` column already exists; otherwise copy every
row into the new shape (title standing in for the missing link). The
`INSERT INTO posts_new … SELECT` raises (modelled as `Except.error`)
when the copied rows would violate the UNIQUE key. -/
def migrate_schema : Store → Except Unit Store
  | .absent => .ok (.current [])
  | .current rows => .ok (.current rows)
  | .old hasAccountCol rows =>
    let newRows := rows.map (migrateRow hasAccountCol)
    if keysUniqueB newRows then .ok (.current newRows) else .error ()

/-- The row count of a store. -/
def storeRowCount : Store → Nat
  | .absent => 0
  | .old _ rows => rows.length
  | .current rows => rows.length

/-!
## Duplicate check — `BotLogic` (`src/bot/bot_logic.py`)
-/

/-- The `duplicate_detection` feature flags from `config.yaml`. -/
structure DupCfg where
  check_database : Bool
  check_bluesky_backup : Bool
  auto_sync_to_database : Bool
deriving DecidableEq, Repr

/-- The secondary-signal test of `is_already_posted_wrapper` line 141:
`any(title.lower() in post.lower() for post in recent_posts)`. -/
def recentPostsMatch (recent : List String) (title : String) : Bool :=
  recent.any fun post => strContains (lowerStr post) (lowerStr title)

/-- Python's `rss_url or title` (line 148): the fallback fires on `None`
and on the empty string. -/
def pyOrStr (o : Option String) (dflt : String) : String :=
  match o with
  | none => dflt
  | some s => if s == "" then dflt else s

/-- `is_already_posted_wrapper` (`bot_logic.py` lines 131–160): check the
database (URL first, then title) when enabled; then the cached recent
Bluesky posts when enabled, backfilling the database on a snapshot hit
when both `auto_sync_to_database` and `check_database` are set (the
backfill uses `rss_url or title`, the current time as the published
date, and no Bluesky identifiers, and its own failure is swallowed);
any error escaping a lookup makes the whole check return `true`.
Returns the verdict and the resulting connection. -/
def is_already_posted_wrapper (cfg : DupCfg) (conn : DbConn)
    (recent : List String) (title : String) (rssUrl : Option String)
    (now : String) : Bool × DbConn :=
  match (if cfg.check_database then is_posted conn rssUrl (some title)
         else .ok false) with
  | .error _ => (true, conn)
  | .ok dbHit =>
    if dbHit then (true, conn)
    else if cfg.check_bluesky_backup && recentPostsMatch recent title then
      if cfg.auto_sync_to_database && cfg.check_database then
        match save_post conn (pyOrStr rssUrl title) title now none none now with
        | .ok conn' => (true, conn')
        | .error _ => (true, conn)
      else (true, conn)
    else (false, conn)

/-- A post of the author feed as `_get_recent_posts` sees it: its record
text when the duck-typed probing finds one. -/
structure FeedPost where
  text : Option String
deriving DecidableEq, Repr

/-- `text.split('\n')[0]`. -/
def firstLine (s : String) : String := (s.splitOn "\n").headD s

/-- `BotLogic._get_recent_posts` (lines 95–116): on any fetch error the
snapshot is the empty list; otherwise the first line of each post text
that the attribute probing can reach. -/
def get_recent_posts (fetched : Except Unit (List FeedPost)) : List String :=
  match fetched with
  | .error _ => []
  | .ok posts => posts.filterMap fun p => p.text.map firstLine

/-!
## Feed fetching — `fetch_new_rss_entries` (`src/utils/rss_parser.py`
lines 90–147)

Timestamps are modelled as natural numbers; the dedup callback is an
arbitrary state-threading function (in the bot it is
`is_already_posted_wrapper`, whose backfill mutates the database).
Note the source signature takes exactly `(is_posted_check,
min_post_date, rss_feed_url)` — it has NO `max_entries` parameter.
-/

/-- A well-formed feed entry: title, link, publication time, and the
image hint attached after the per-entry scrape. -/
structure FeedEntry where
  title : String
  link : String
  published : Nat
  image_url : Option String
deriving DecidableEq, Repr

/-- The entry loop of `fetch_new_rss_entries`: skip entries older than
`min_date`, skip entries the callback reports as already posted
(threading the callback's state), keep everything else — all of them:
no count limit appears anywhere in the function. -/
def fetch_new_rss_entries {σ : Type}
    (isPostedCheck : σ → String → String → Bool × σ) (minDate : Nat) :
    List FeedEntry → σ → List FeedEntry × σ
  | [], s => ([], s)
  | e :: es, s =>
    if e.published < minDate then fetch_new_rss_entries isPostedCheck minDate es s
    else
      let (hit, s') := isPostedCheck s e.title e.link
      if hit then fetch_new_rss_entries isPostedCheck minDate es s'
      else
        let (rest, s'') := fetch_new_rss_entries isPostedCheck minDate es s'
        (e :: rest, s'')

/-!
## Publishing — `PostHandler.post_entry` (lines 258–300) and the
per-entry loop body of `BotLogic.run` (lines 174–200)

The remote calls are injected: `sendWithEmbed` / `sendTextOnly` are the
outcomes `client.send_post` would produce (the response's optional
`uri`), `resolveHandle` the outcome of `client.get_profile`.
-/

/-- Outcomes of the at-most-two `send_post` calls of one `post_entry`
invocation: each is an exception or a response carrying an optional
`uri` attribute. -/
structure SendOutcomes where
  sendWithEmbed : Except Unit (Option String)
  sendTextOnly : Except Unit (Option String)

/-- Permalink derivation of `post_entry` lines 282–295: split the AT URI
on `/`; with at least 5 parts build the `bsky.app` URL from the resolved
handle, falling back to the DID when resolution fails. -/
def derivePermalink (resolveHandle : String → Except Unit String)
    (atUri : String) : Option String :=
  let parts := atUri.splitOn "/"
  if parts.length ≥ 5 then
    let did := parts.getD 2 ""
    let rkey := parts.getD 4 ""
    match resolveHandle did with
    | .ok handle => some ("https://bsky.app/profile/" ++ handle ++ "/post/" ++ rkey)
    | .error _ => some ("https://bsky.app/profile/" ++ did ++ "/post/" ++ rkey)
  else none

/-- The send/except control flow of `post_entry` (lines 258–300),
returning the `(uri, url)` pair of the final `return`. With an embed, a
failed send is retried text-only and a second failure re-raises; WITHOUT
an embed a failed send is logged but swallowed (`if embed:` guards the
retry-and-raise), `response` stays `None`, and the function returns
`{'uri': None, 'url': None}` as if it had succeeded. -/
def post_entry (embedAttached : Bool) (send : SendOutcomes)
    (resolveHandle : String → Except Unit String) :
    Except Unit (Option String × Option String) :=
  let responseE : Except Unit (Option (Option String)) :=
    if embedAttached then
      match send.sendWithEmbed with
      | .ok r => .ok (some r)
      | .error _ =>
        match send.sendTextOnly with
        | .ok r => .ok (some r)
        | .error e => .error e
    else
      match send.sendTextOnly with
      | .ok r => .ok (some r)
      | .error _ => .ok none
  match responseE with
  | .error e => .error e
  | .ok response =>
    let atUri : Option String :=
      match response with
      | none => none
      | some uriAttr => uriAttr
    match atUri with
    | none => .ok (none, none)
    | some uri => .ok (some uri, derivePermalink resolveHandle uri)

/-- The body of the `for entry in new_entries` loop of `BotLogic.run`
(lines 174–200): an exception from `post_entry` is caught and the loop
continues with the connection untouched; otherwise the post is saved to
the database when enabled (a save failure only being logged). -/
def process_entry (cfg : DupCfg) (conn : DbConn) (entry : FeedEntry)
    (postResult : Except Unit (Option String × Option String))
    (now : String) : DbConn :=
  match postResult with
  | .error _ => conn
  | .ok (uri, url) =>
    if cfg.check_database then
      match save_post conn entry.link entry.title (toString entry.published)
          uri url now with
      | .ok conn' => conn'
      | .error _ => conn
    else conn

/-!
## Login backoff — `BotLogic._login_with_retries` (lines 73–93)
-/

/-- The outcome of one `client.login` attempt. -/
inductive AttemptOutcome where
  | success : AttemptOutcome
  | rateLimit : AttemptOutcome
  | otherError : AttemptOutcome
deriving DecidableEq, Repr

/-- How `_login_with_retries` ends: a successful return, an immediate
re-raise of a non-rate-limit error, or the fatal
`"Max retries exceeded"` exception after the ceiling. -/
inductive LoginResult where
  | ok : LoginResult
  | raised : LoginResult
  | fatal : LoginResult
deriving DecidableEq, Repr

/-- The `while retries < self.max_retries` loop, with `fuel` the number
of remaining attempts, `attempt` the 0-based index of the next attempt,
`delay` the current sleep, and `slept` the total time slept so far.
Returns the result, the number of attempts made, and the total sleep. -/
def loginLoop (outcome : Nat → AttemptOutcome) :
    Nat → Nat → Nat → Nat → LoginResult × Nat × Nat
  | 0, attempt, _, slept => (.fatal, attempt, slept)
  | fuel + 1, attempt, delay, slept =>
    match outcome attempt with
    | .success => (.ok, attempt + 1, slept)
    | .rateLimit => loginLoop outcome fuel (attempt + 1) (delay * 2) (slept + delay)
    | .otherError => (.raised, attempt + 1, slept)

/-- `_login_with_retries`: run the loop from attempt 0 with the
configured initial delay. -/
def login_with_retries (outcome : Nat → AttemptOutcome)
    (maxRetries initialDelay : Nat) : LoginResult × Nat × Nat :=
  loginLoop outcome maxRetries 0 initialDelay 0

/-!
## Reachable ledger states
-/

/-- Ledger states of one account reachable by the system's own writes:
the fresh empty table, any state reached by a `save_post` (from the
posting loop or the oracle's backfill), and any successful migration of
a pre-`rss_url` store. -/
inductive ReachableLedger : List Row → Prop where
  | empty : ReachableLedger []
  | save {rows : List Row} (acc url title pd : String)
      (uri burl : Option String) (now : String) :
      ReachableLedger rows →
      ReachableLedger (save_post_rows rows acc url title pd uri burl now)
  | migrated {hasAccountCol : Bool} {old : List OldRow} {rows : List Row} :
      migrate_schema (.old hasAccountCol old) = .ok (.current rows) →
      ReachableLedger rows

/-- The UNIQUE-key invariant as a proposition. -/
def keysUnique (rows : List Row) : Prop :=
  rows.Pairwise fun r s => ¬(r.account_name = s.account_name ∧ r.rss_url = s.rss_url)

/-!
## Theorems
-/

/-- A 300-character title, forcing truncation. -/
def c2Title : List Char := List.replicate 300 'x'

/-- A 50-character link. -/
def c2Link : List Char := List.replicate 50 'y'

set_option maxRecDepth 4000 in
/-- **C2**: the claim says the composed post text never exceeds the
300-character platform budget. It does: with the default template, a
300-character title and a 50-character link, the title budget is
`300 - 13 - 50 = 237`, the code keeps 236 title characters and appends
the THREE-character mojibake ellipsis literal, so the final text has
`236 + 3 + 13 + 50 = 302 > 300` characters. (The full literal link
substring IS preserved, as the last conjunct shows: only the length half
of the claim fails.) -/
theorem c2_overflow_eval :
    (composePostText [] defaultTplMid [] c2Title c2Link).length = 302 ∧
    containsList c2Link (composePostText [] defaultTplMid [] c2Title c2Link)
      = true := by
  decide

/-- Both `send_post` calls raise. -/
def c1Send : SendOutcomes := ⟨.error (), .error ()⟩

/-- Handle resolution never succeeds (irrelevant here). -/
def c1Resolve : String → Except Unit String := fun _ => .error ()

/-- All duplicate-detection features on. -/
def cfgAllOn : DupCfg := ⟨true, true, true⟩

/-- A fresh, error-free connection with an empty ledger. -/
def c1Conn : DbConn := ⟨"acct", [], false, false⟩

/-- A candidate item. -/
def c1Entry : FeedEntry := ⟨"T", "http://e", 100, none⟩

/-- The connection after the posting-loop body handles `c1Entry` whose
text-only (no-embed) publish attempt failed. -/
def c1ConnAfter : DbConn :=
  process_entry cfgAllOn c1Conn c1Entry (post_entry false c1Send c1Resolve) "now1"

/-- **C1**: the claim says a publish failure with no enrichment embed
attached leaves the item unrecorded and eligible next cycle. It does
not: `post_entry` swallows the exception (the retry-and-reraise is
guarded by `if embed:`), returns `{'uri': None, 'url': None}` as a
success, the loop body then RECORDS a LedgerEntry for the never-posted
item, and the next cycle classifies it as a duplicate, not as new. -/
theorem c1_swallowed_failure_eval :
    post_entry false c1Send c1Resolve = .ok (none, none) ∧
    c1ConnAfter.rows.any (rowKeyMatch "acct" "http://e") = true ∧
    (is_already_posted_wrapper cfgAllOn c1ConnAfter [] "T" (some "http://e")
      "now2").1 = true :=
  ⟨rfl, by decide, by decide⟩

/-- Database checking only. -/
def c3Cfg : DupCfg := ⟨true, false, false⟩

/-- A fresh, error-free connection with an empty ledger. -/
def c3Conn : DbConn := ⟨"acct", [], false, false⟩

/-- The dedup callback `BotLogic.run` hands to `fetch_new_rss_entries`. -/
def c3Check (conn : DbConn) (title link : String) : Bool × DbConn :=
  is_already_posted_wrapper c3Cfg conn [] title (some link) "now"

/-- Two fresh feed entries, both newer than the minimum date. -/
def c3Entries : List FeedEntry :=
  [⟨"A", "http://a", 10, none⟩, ⟨"B", "http://b", 11, none⟩]

/-- **C3**: the claim says the fetching step is bounded by the
configured max-items-per-cycle limit. `fetch_new_rss_entries` contains
no such bound: with any configured limit (e.g. 1) and two fresh unseen
entries it yields both. (In the source the mismatch is even harder: the
call site passes `max_entries=`, a keyword the function signature does
not accept, so the call raises `TypeError`.) -/
theorem c3_no_limit_eval :
    (fetch_new_rss_entries c3Check 0 c3Entries c3Conn).1.length = 2 := by
  decide

/-- Step 1 of the duplicate check: the `(account_name, rss_url)` lookup
of `is_posted`. -/
def urlLookupHit (rows : List Row) (acc : String) (rssUrl : Option String) :
    Bool :=
  pyTruthy rssUrl &&
    rows.any fun r => r.account_name == acc && r.rss_url == rssUrl.getD ""

/-- Step 2 of the duplicate check: the `(account_name, title)` fallback
lookup of `is_posted`. -/
def titleLookupHit (rows : List Row) (acc : String) (title : Option String) :
    Bool :=
  pyTruthy title &&
    rows.any fun r => r.account_name == acc && r.title == title.getD ""

theorem is_posted_rows_eq (rows : List Row) (acc : String)
    (rssUrl title : Option String) :
    is_posted_rows rows acc rssUrl title =
      (urlLookupHit rows acc rssUrl || titleLookupHit rows acc title) := rfl

/-- **C4**: for every item the duplicate check runs ledger-by-link, then
ledger-by-title, then (when enabled) the case-insensitive snapshot
match, short-circuiting to `true` on the first hit — in particular a
ledger hit returns before the snapshot step's backfill side effect can
touch the store — and returns `false` exactly when every enabled check
misses. -/
theorem c4_duplicate_check_order (cfg : DupCfg) (conn : DbConn)
    (recent : List String) (title : String) (rssUrl : Option String)
    (now : String) (hok : conn.lookupRaises = false) :
    ((is_already_posted_wrapper cfg conn recent title rssUrl now).1 = true ↔
      (cfg.check_database = true ∧
        (urlLookupHit conn.rows conn.account_name rssUrl = true ∨
         titleLookupHit conn.rows conn.account_name (some title) = true)) ∨
      (cfg.check_bluesky_backup = true ∧
        recentPostsMatch recent title = true)) ∧
    (cfg.check_database = true →
      is_posted_rows conn.rows conn.account_name rssUrl (some title) = true →
      is_already_posted_wrapper cfg conn recent title rssUrl now =
        (true, conn)) ∧
    ((cfg.check_database = true →
        is_posted_rows conn.rows conn.account_name rssUrl (some title) = false) →
     (cfg.check_bluesky_backup = true → recentPostsMatch recent title = false) →
     is_already_posted_wrapper cfg conn recent title rssUrl now =
       (false, conn)) := by
  refine ⟨?_, ?_, ?_⟩
  · cases hdb : cfg.check_database <;>
      cases hbk : cfg.check_bluesky_backup <;>
      simp [is_already_posted_wrapper, is_posted, hok, hdb, hbk,
        is_posted_rows_eq] <;>
      by_cases h1 : urlLookupHit conn.rows conn.account_name rssUrl = true <;>
      by_cases h2 : titleLookupHit conn.rows conn.account_name (some title)
        = true <;>
      by_cases h3 : recentPostsMatch recent title = true <;>
      simp_all <;>
      cases hsy : cfg.auto_sync_to_database <;>
      simp [hsy] <;>
      cases hsv : save_post conn (pyOrStr rssUrl title) title now none none now
        <;> simp
  · intro hdb hhit
    simp [is_already_posted_wrapper, is_posted, hok, hdb, hhit]
  · intro hmiss hsnap
    cases hdb : cfg.check_database
    · cases hbk : cfg.check_bluesky_backup
      · simp [is_already_posted_wrapper, is_posted, hok, hdb, hbk]
      · simp [is_already_posted_wrapper, is_posted, hok, hdb, hbk, hsnap hbk]
    · cases hbk : cfg.check_bluesky_backup
      · simp [is_already_posted_wrapper, is_posted, hok, hdb, hbk, hmiss hdb]
      · simp [is_already_posted_wrapper, is_posted, hok, hdb, hbk,
          hmiss hdb, hsnap hbk]

/-- A ledger already holding the item `("acct", "http://a", "A")`. -/
def c4Conn : DbConn :=
  ⟨"acct", [⟨1, "acct", "http://a", "A", none, none, some "t0", some "p0"⟩],
    false, false⟩

/-- Witness for C4: on a concrete ledger hit the wrapper returns `true`
and leaves the connection untouched. -/
theorem c4_witness :
    is_already_posted_wrapper cfgAllOn c4Conn ["zzz"] "A" (some "http://a")
      "now" = (true, c4Conn) :=
  (c4_duplicate_check_order cfgAllOn c4Conn ["zzz"] "A" (some "http://a")
    "now" rfl).2.1 rfl (by decide)

/-- **C5**: a duplicate-lookup error makes the check return `true`
(fail-closed): with database checking enabled and the lookup raising,
the wrapper answers `true` whatever the snapshot and the item are, and
the store is untouched — a lookup error never classifies an item as
new. -/
theorem c5_lookup_error_fail_closed (cfg : DupCfg) (conn : DbConn)
    (recent : List String) (title : String) (rssUrl : Option String)
    (now : String) (hdb : cfg.check_database = true)
    (herr : conn.lookupRaises = true) :
    is_already_posted_wrapper cfg conn recent title rssUrl now =
      (true, conn) := by
  simp [is_already_posted_wrapper, is_posted, hdb, herr]

/-- An empty-ledger connection whose lookups raise. -/
def c5Conn : DbConn := ⟨"acct", [], true, false⟩

/-- Witness for C5 at a concrete raising connection. -/
theorem c5_witness :
    is_already_posted_wrapper cfgAllOn c5Conn [] "T" (some "http://t")
      "now" = (true, c5Conn) :=
  c5_lookup_error_fail_closed cfgAllOn c5Conn [] "T" (some "http://t")
    "now" rfl rfl

/-- A fresh, error-free connection for the C6 run. -/
def c6Conn : DbConn := ⟨"acct", [], false, false⟩

/-- A candidate item whose publication timestamp (20240101) differs
from the wall-clock time of the check ("20250505"). -/
def c6Item : FeedEntry := ⟨"My Title", "http://item", 20240101, none⟩

/-- The duplicate check on `c6Item` with every flag enabled, a snapshot
containing the item's title, and current time "20250505". -/
def c6Run : Bool × DbConn :=
  is_already_posted_wrapper cfgAllOn c6Conn ["My Title extra words"]
    c6Item.title (some c6Item.link) "20250505"

/-- A connection whose single row collides with the item's title used
as the fallback key: `rss_url = "My Title"` but `title = "Other"`, so
both ledger lookups miss (url lookup is skipped for a `None` link, the
title lookup misses) yet `INSERT OR IGNORE` finds the
`(account, "My Title")` key taken. -/
def c6CollConn : DbConn :=
  ⟨"acct", [⟨1, "acct", "My Title", "Other", none, none, some "t0",
    some "p0"⟩], false, false⟩

/-- Auto-backfill on but database checking off. -/
def c6NoDbCfg : DupCfg := ⟨false, true, true⟩

/-- A connection whose single row already matches the item by link —
recorded by a normal publish, so with Bluesky identifiers set and a
publish-time `published_date`. -/
def c6HitConn : DbConn :=
  ⟨"acct", [⟨1, "acct", "http://item", "My Title", some "at://x",
    some "https://b", some "t0", some "20230303"⟩], false, false⟩

/-- A fresh connection whose saves raise. -/
def c6SaveErrConn : DbConn := ⟨"acct", [], false, true⟩

/-- **C6** counterexample: the claim — snapshot hit with auto-backfill
enabled implies the check returns `true` AND a LedgerEntry synthesized
from the item's own link, title and timestamp with empty remote
identifiers exists immediately afterwards — is false at five concrete
inputs, the check returning `true` each time:
(1) on the plain backfill the recorded entry carries `datetime.now()`
("20250505"), not the item's own timestamp ("20240101");
(2) with no link, the title-as-key `INSERT OR IGNORE` collides with an
existing `(account, "My Title")` row and the backfill is silently
dropped — no entry for the item exists at all;
(3) with database checking disabled no backfill runs and the store
stays empty;
(4) on a ledger-lookup hit the check short-circuits and no synthesized
entry (item timestamp, empty identifiers) exists;
(5) a raising save is swallowed and the store stays empty. -/
theorem c6_counterexample :
    (c6Run.1 = true ∧
      ¬ ∃ r ∈ c6Run.2.rows, r.rss_url = c6Item.link ∧ r.title = c6Item.title ∧
          r.published_date = some (toString c6Item.published) ∧
          r.bluesky_uri = none ∧ r.bluesky_url = none) ∧
    (is_already_posted_wrapper cfgAllOn c6CollConn ["My Title extra words"]
        c6Item.title none "20250505" = (true, c6CollConn) ∧
      ¬ ∃ r ∈ c6CollConn.rows, r.title = c6Item.title) ∧
    (is_already_posted_wrapper c6NoDbCfg c6Conn ["My Title extra words"]
        c6Item.title (some c6Item.link) "20250505" = (true, c6Conn) ∧
      c6Conn.rows = []) ∧
    (is_already_posted_wrapper cfgAllOn c6HitConn ["My Title extra words"]
        c6Item.title (some c6Item.link) "20250505" = (true, c6HitConn) ∧
      ¬ ∃ r ∈ c6HitConn.rows,
          r.published_date = some (toString c6Item.published) ∧
          r.bluesky_uri = none ∧ r.bluesky_url = none) ∧
    (is_already_posted_wrapper cfgAllOn c6SaveErrConn ["My Title extra words"]
        c6Item.title (some c6Item.link) "20250505" = (true, c6SaveErrConn) ∧
      c6SaveErrConn.rows = []) := by
  decide

/-- **C6** amended: for every item whose title matches the pre-fetched
snapshot (the secondary signal being enabled), the duplicate check
returns `true` — whatever the store's contents, flags or errors. When
additionally auto-backfill AND database checking are enabled, the store
raises no errors, and both ledger lookups miss, the check backfills the
ledger with an entry synthesized from the item's link — falling back to
its title when the link is absent or empty (`rss_url or title`) — and
its title, with `published_date` and `posted_at` set to the current
wall-clock time of the check (not the item's own timestamp) and the
Bluesky identifiers left empty; the entry is appended unless a row with
the same `(account, key)` already exists, in which case the
`INSERT OR IGNORE` drops the backfill and the store is unchanged. -/
theorem c6_backfill_amended (cfg : DupCfg) (conn : DbConn)
    (recent : List String) (title : String) (rssUrl : Option String)
    (now : String) (hbk : cfg.check_bluesky_backup = true)
    (hhit : recentPostsMatch recent title = true) :
    (is_already_posted_wrapper cfg conn recent title rssUrl now).1 = true ∧
    (cfg.check_database = true → cfg.auto_sync_to_database = true →
     conn.lookupRaises = false → conn.saveRaises = false →
     is_posted_rows conn.rows conn.account_name rssUrl (some title) = false →
     (conn.rows.any (rowKeyMatch conn.account_name (pyOrStr rssUrl title))
        = false →
      is_already_posted_wrapper cfg conn recent title rssUrl now =
        (true, { conn with rows := conn.rows ++
          [⟨nextId conn.rows, conn.account_name, pyOrStr rssUrl title, title,
            none, none, some now, some now⟩] })) ∧
     (conn.rows.any (rowKeyMatch conn.account_name (pyOrStr rssUrl title))
        = true →
      is_already_posted_wrapper cfg conn recent title rssUrl now =
        (true, conn))) := by
  constructor
  · cases hdb : cfg.check_database <;> cases herr : conn.lookupRaises <;>
      by_cases hdbhit : is_posted_rows conn.rows conn.account_name rssUrl
        (some title) = true <;>
      cases hsy : cfg.auto_sync_to_database <;>
      simp [is_already_posted_wrapper, is_posted, hbk, hhit, hdb, herr,
        hdbhit, hsy] <;>
      cases hsv : save_post conn (pyOrStr rssUrl title) title now none none
        now <;> simp
  · intro hdb hsync hlok hsok hmiss
    have heval : is_already_posted_wrapper cfg conn recent title rssUrl now =
        (true, { conn with rows :=
            (save_post_rows conn.rows conn.account_name
              (pyOrStr rssUrl title) title now none none now) }) := by
      simp [is_already_posted_wrapper, is_posted, hlok, hdb, hmiss, hbk,
        hhit, hsync, save_post, hsok]
    constructor
    · intro hkey
      rw [heval]
      simp [save_post_rows, hkey]
    · intro hkey
      rw [heval]
      simp [save_post_rows, hkey]

/-- Witness for the amended C6: the verdict and the exact appended row
at the plain concrete input, and the dropped backfill at the concrete
colliding input. -/
theorem c6_witness :
    (is_already_posted_wrapper cfgAllOn c6Conn ["My Title extra words"]
      "My Title" (some "http://item") "20250505").1 = true ∧
    is_already_posted_wrapper cfgAllOn c6Conn ["My Title extra words"]
      "My Title" (some "http://item") "20250505" =
      (true, { c6Conn with rows := c6Conn.rows ++
        [⟨nextId c6Conn.rows, c6Conn.account_name,
          pyOrStr (some "http://item") "My Title", "My Title",
          none, none, some "20250505", some "20250505"⟩] }) ∧
    is_already_posted_wrapper cfgAllOn c6CollConn ["My Title extra words"]
      "My Title" none "20250505" = (true, c6CollConn) :=
  have h := c6_backfill_amended cfgAllOn c6Conn ["My Title extra words"]
    "My Title" (some "http://item") "20250505" rfl (by decide)
  have hc := c6_backfill_amended cfgAllOn c6CollConn ["My Title extra words"]
    "My Title" none "20250505" rfl (by decide)
  ⟨h.1,
   (h.2 rfl rfl rfl rfl (by decide)).1 (by decide),
   (hc.2 rfl rfl rfl rfl (by decide)).2 (by decide)⟩

theorem loginLoop_rateLimit (outcome : Nat → AttemptOutcome)
    (fuel attempt delay slept : Nat)
    (h : outcome attempt = .rateLimit) :
    loginLoop outcome (fuel + 1) attempt delay slept =
      loginLoop outcome fuel (attempt + 1) (delay * 2) (slept + delay) := by
  simp [loginLoop, h]

theorem loginLoop_success (outcome : Nat → AttemptOutcome)
    (fuel attempt delay slept : Nat) (h : outcome attempt = .success) :
    loginLoop outcome (fuel + 1) attempt delay slept =
      (.ok, attempt + 1, slept) := by
  simp [loginLoop, h]

theorem loginLoop_allRateLimit (outcome : Nat → AttemptOutcome)
    (h : ∀ k, outcome k = .rateLimit) (fuel : Nat) :
    ∀ attempt delay slept,
      (loginLoop outcome fuel attempt delay slept).1 = .fatal := by
  induction fuel with
  | zero => intro attempt delay slept; rfl
  | succ n ih =>
    intro attempt delay slept
    rw [loginLoop_rateLimit outcome n attempt delay slept (h attempt)]
    exact ih (attempt + 1) (delay * 2) (slept + delay)

/-- **C7**: when the first two login attempts fail rate-limited and the
third succeeds (the ceiling allowing a third attempt), the login makes
exactly 3 attempts and sleeps `initial_delay + 2*initial_delay` in
total; a non-rate-limit failure re-raises at once with no sleep and no
retry; and a run whose every attempt is rate-limited ends in the fatal
"Max retries exceeded" error. -/
theorem c7_login_backoff (outcome : Nat → AttemptOutcome)
    (maxRetries initialDelay : Nat)
    (h0 : outcome 0 = .rateLimit) (h1 : outcome 1 = .rateLimit)
    (h2 : outcome 2 = .success) (hm : 3 ≤ maxRetries) :
    login_with_retries outcome maxRetries initialDelay =
      (.ok, 3, initialDelay + 2 * initialDelay) ∧
    (∀ oc (m d : Nat), oc 0 = .otherError → 1 ≤ m →
      login_with_retries oc m d = (.raised, 1, 0)) ∧
    (∀ oc (m d : Nat), (∀ k, oc k = .rateLimit) →
      (login_with_retries oc m d).1 = .fatal) := by
  refine ⟨?_, ?_, ?_⟩
  · obtain ⟨k, rfl⟩ := Nat.exists_eq_add_of_le hm
    show loginLoop outcome (3 + k) 0 initialDelay 0 = _
    rw [Nat.add_comm 3 k]
    rw [show k + 3 = (k + 2) + 1 from rfl,
      loginLoop_rateLimit outcome (k + 2) 0 initialDelay 0 h0]
    rw [show k + 2 = (k + 1) + 1 from rfl,
      loginLoop_rateLimit outcome (k + 1) 1 (initialDelay * 2)
        (0 + initialDelay) h1]
    rw [loginLoop_success outcome k 2 (initialDelay * 2 * 2)
      (0 + initialDelay + initialDelay * 2) h2]
    have : 0 + initialDelay + initialDelay * 2 =
        initialDelay + 2 * initialDelay := by ring
    rw [this]
  · intro oc m d hoc hm1
    obtain ⟨k, rfl⟩ := Nat.exists_eq_add_of_le hm1
    show loginLoop oc (1 + k) 0 d 0 = _
    rw [Nat.add_comm 1 k]
    simp [loginLoop, hoc]
  · intro oc m d hall
    exact loginLoop_allRateLimit oc hall m 0 d 0

/-- Rate-limited on attempts 0 and 1, success from attempt 2 on. -/
def c7Outcome : Nat → AttemptOutcome := fun n =>
  if n < 2 then .rateLimit else .success

/-- Witness for C7: with ceiling 3 and initial delay 7 the login
succeeds on the third attempt having slept `7 + 2*7`. -/
theorem c7_witness :
    login_with_retries c7Outcome 3 7 = (.ok, 3, 7 + 2 * 7) :=
  (c7_login_backoff c7Outcome 3 7 (by decide) (by decide) (by decide)
    (by decide)).1

/-- **C8**: a successful run of the schema migration is idempotent — a
second run returns the very same store, hence the same final schema and
row count as one run — and migrating a pre-link-column store maps every
row so that the missing `rss_url` column is filled with that row's
title, preserving the row count. -/
theorem c8_migration_idempotent :
    (∀ s s', migrate_schema s = .ok s' → migrate_schema s' = .ok s') ∧
    (∀ (hasAccountCol : Bool) (oldRows : List OldRow) (s' : Store),
      migrate_schema (.old hasAccountCol oldRows) = .ok s' →
      s' = .current (oldRows.map (migrateRow hasAccountCol)) ∧
      storeRowCount s' = oldRows.length ∧
      ∀ r : OldRow, (migrateRow hasAccountCol r).rss_url = r.title) := by
  constructor
  · intro s s' h
    cases s with
    | absent =>
      simp only [migrate_schema, Except.ok.injEq] at h
      subst h; rfl
    | current rows =>
      simp only [migrate_schema, Except.ok.injEq] at h
      subst h; rfl
    | old hasAccountCol rows =>
      simp only [migrate_schema] at h
      split at h
      · simp only [Except.ok.injEq] at h
        subst h; rfl
      · exact absurd h (by simp)
  · intro hasAccountCol oldRows s' h
    simp only [migrate_schema] at h
    split at h
    · simp only [Except.ok.injEq] at h
      subst h
      exact ⟨rfl, by simp [storeRowCount], fun r => rfl⟩
    · exact absurd h (by simp)

/-- A one-row pre-link-column store with an `account_name` column. -/
def c8OldRow : OldRow := ⟨1, "acct", "Title A", some "2024-01-01"⟩

/-- The store the C8 migration produces. -/
def c8After : Store := .current ([c8OldRow].map (migrateRow true))

/-- Witness for C8: migrating the already-migrated one-row store is a
no-op, and the migrated row's `rss_url` equals its title. -/
theorem c8_witness :
    migrate_schema c8After = .ok c8After ∧
    (migrateRow true c8OldRow).rss_url = c8OldRow.title :=
  ⟨c8_migration_idempotent.1 (.old true [c8OldRow]) c8After rfl,
   (c8_migration_idempotent.2 true [c8OldRow] c8After rfl).2.2 c8OldRow⟩



theorem keysUniqueB_iff (rows : List Row) :
    keysUniqueB rows = true ↔ keysUnique rows := by
  induction rows with
  | nil => simp [keysUniqueB, keysUnique]
  | cons r rs ih =>
    unfold keysUniqueB keysUnique
    rw [Bool.and_eq_true, ih, List.pairwise_cons]
    unfold keysUnique
    constructor
    · rintro ⟨hno, hrest⟩
      refine ⟨?_, hrest⟩
      intro s hs hcon
      rw [Bool.not_eq_true', List.any_eq_false] at hno
      have hk := hno s hs
      rw [Bool.not_eq_true, Bool.eq_false_iff] at hk
      exact hk (by rw [Bool.and_eq_true, beq_iff_eq, beq_iff_eq]; exact hcon)
    · rintro ⟨hno, hrest⟩
      refine ⟨?_, hrest⟩
      rw [Bool.not_eq_true', List.any_eq_false]
      intro s hs
      rw [Bool.not_eq_true, Bool.eq_false_iff]
      intro hcontra
      rw [Bool.and_eq_true, beq_iff_eq, beq_iff_eq] at hcontra
      exact hno s hs hcontra

theorem keysUnique_save (rows : List Row) (acc url title pd : String)
    (uri burl : Option String) (now : String) (h : keysUnique rows) :
    keysUnique (save_post_rows rows acc url title pd uri burl now) := by
  unfold save_post_rows
  split
  · exact h
  · rename_i hany
    rw [Bool.not_eq_true, List.any_eq_false] at hany
    unfold keysUnique
    rw [List.pairwise_append]
    refine ⟨h, List.pairwise_singleton _ _, ?_⟩
    intro a ha b hb
    simp only [List.mem_singleton] at hb
    subst hb
    intro hcon
    refine hany a ha ?_
    unfold rowKeyMatch
    rw [Bool.and_eq_true, beq_iff_eq, beq_iff_eq]
    exact ⟨hcon.1, hcon.2⟩

/-- **C9**: every reachable ledger state has pairwise-distinct
`(account_name, rss_url)` keys; saving an entry whose key already exists
leaves the store exactly as it was; and no save operation ever removes
or alters an existing row — rows are only ever appended. -/
theorem c9_ledger_invariant (rows : List Row) (h : ReachableLedger rows) :
    keysUnique rows ∧
    (∀ acc url title pd uri burl now,
      rows.any (rowKeyMatch acc url) = true →
      save_post_rows rows acc url title pd uri burl now = rows) ∧
    (∀ acc url title pd uri burl now r, r ∈ rows →
      r ∈ save_post_rows rows acc url title pd uri burl now) := by
  refine ⟨?_, ?_, ?_⟩
  · induction h with
    | empty => exact List.Pairwise.nil
    | save acc url title pd uri burl now _ ih =>
      exact keysUnique_save _ acc url title pd uri burl now ih
    | migrated hmig =>
      rename_i hasAccountCol old rows'
      simp only [migrate_schema] at hmig
      split at hmig
      · rename_i huniq
        simp only [Except.ok.injEq, Store.current.injEq] at hmig
        subst hmig
        exact (keysUniqueB_iff _).mp huniq
      · exact absurd hmig (by simp)
  · intro acc url title pd uri burl now hany
    simp [save_post_rows, hany]
  · intro acc url title pd uri burl now r hr
    unfold save_post_rows
    split
    · exact hr
    · exact List.mem_append_left _ hr

/-- The one-row ledger reached by saving into the empty ledger. -/
def c9Rows : List Row := save_post_rows [] "a" "http://u" "t" "p" none none "n"

/-- Witness for C9: the concrete reachable one-row ledger has unique
keys, a same-key save leaves it unchanged, and its row survives a
fresh-key save. -/
theorem c9_witness :
    keysUnique c9Rows ∧
    save_post_rows c9Rows "a" "http://u" "t2" "p2" none none "n2" = c9Rows ∧
    (⟨1, "a", "http://u", "t", none, none, some "n", some "p"⟩ : Row) ∈
      save_post_rows c9Rows "a" "http://v" "t" "p" none none "n" :=
  have h := c9_ledger_invariant c9Rows
    (ReachableLedger.save "a" "http://u" "t" "p" none none "n"
      ReachableLedger.empty)
  ⟨h.1,
   h.2.1 "a" "http://u" "t2" "p2" none none "n2" (by decide),
   h.2.2 "a" "http://v" "t" "p" none none "n" _ (by decide)⟩

/-- **C10**: a failed recent-activity fetch yields the empty snapshot;
with an empty snapshot the secondary signal matches no title, and the
whole duplicate check behaves exactly as if the secondary signal were
disabled (fail-open: items fall through to the remaining checks) —
in contrast with a per-item ledger-lookup error, which forces the
verdict `true` (fail-closed). -/
theorem c10_snapshot_fail_open :
    get_recent_posts (.error ()) = [] ∧
    (∀ title, recentPostsMatch [] title = false) ∧
    (∀ cfg conn title rssUrl now,
      is_already_posted_wrapper cfg conn [] title rssUrl now =
        is_already_posted_wrapper { cfg with check_bluesky_backup := false }
          conn [] title rssUrl now) ∧
    (∀ cfg conn recent title rssUrl now, cfg.check_database = true →
      conn.lookupRaises = true →
      (is_already_posted_wrapper cfg conn recent title rssUrl now).1
        = true) := by
  refine ⟨rfl, fun title => rfl, ?_, ?_⟩
  · intro cfg conn title rssUrl now
    simp [is_already_posted_wrapper, recentPostsMatch]
  · intro cfg conn recent title rssUrl now hdb herr
    simp [is_already_posted_wrapper, is_posted, hdb, herr]

/-- An empty-ledger connection whose lookups raise, for the C10
fail-closed contrast. -/
def c10Conn : DbConn := ⟨"acct", [], true, false⟩

/-- Witness for C10's quantified parts at concrete inputs. -/
theorem c10_witness :
    (is_already_posted_wrapper cfgAllOn c10Conn ["x"] "t" none "n").1
      = true :=
  c10_snapshot_fail_open.2.2.2 cfgAllOn c10Conn ["x"] "t" none "n" rfl rfl
